import Mathlib

/-
Verification development for the TopGames product-catalog API (`main.py`).

The program is embedded shallowly:
  * a stored document is an association list of string keys to JSON-like
    values (`Doc`), mirroring the Python dicts handed back by the store;
  * MongoDB query filters built by the handlers become the `Cond` type with
    an executable matching semantics (`filterMatches`), where `$regex` with
    `$options: "i"` is modelled as case-insensitive substring containment;
  * FastAPI `Query(default, ge, le)` parameter validation becomes
    `validateLimit` (absent parameter -> default, out-of-range -> `none`,
    which the endpoint embeddings turn into an HTTP 422 response);
  * every endpoint is a pure function from its query parameters and the
    store state (`Option (List Doc)`, `none` = database handle unavailable)
    to an `HttpResponse`.
-/

namespace TopGames

/-- JSON-like values stored in a document: strings, object ids, integers
(used for timestamps in the model) and arrays of strings (tags). -/
inductive Value where
| str (s : String)
| oid (s : String)
| intv (n : Int)
| arr (l : List String)
deriving DecidableEq, Repr

/-- A stored document: an association list from keys to values, mirroring a
Python dict (no duplicate keys arise from the operations below). -/
abbrev Doc : Type := List (String × Value)

/-- Python `str(value)`: the rendering used by `product_to_public` when it
stringifies the object id and the timestamps. -/
def valueToString : Value → String
| .str s => s
| .oid s => s
| .intv n => toString n
| .arr l => toString l

/-- Python `doc[k]` / `k in doc`: first binding of key `k`, if any. -/
def dictLookup (k : String) : Doc → Option Value
| [] => none
| (k2, v) :: tl => if k2 = k then some v else dictLookup k tl

/-- Python `doc.pop(k)`: drop every binding of key `k`. -/
def dictErase (k : String) : Doc → Doc
| [] => []
| (k2, v) :: tl => if k2 = k then dictErase k tl else (k2, v) :: dictErase k tl

/-- Python `doc[k] = v`: overwrite the binding in place when the key is
present, append a new binding at the end otherwise. -/
def dictSet (k : String) (v : Value) : Doc → Doc
| [] => [(k, v)]
| (k2, w) :: tl => if k2 = k then (k, v) :: tl else (k2, w) :: dictSet k v tl

/-- Embeds `product_to_public`, line by line: the `_id` renaming step.
`if "_id" in doc: doc["id"] = str(doc.pop("_id"))`. -/
def renameIdField (d : Doc) : Doc :=
  match dictLookup "_id" d with
  | some v => dictSet "id" (Value.str (valueToString v)) (dictErase "_id" d)
  | none => d

/-- Embeds the timestamp-stringifying steps of `product_to_public`:
`if key in doc: doc[key] = str(doc[key])`. -/
def stampField (key : String) (d : Doc) : Doc :=
  match dictLookup key d with
  | some v => dictSet key (Value.str (valueToString v)) d
  | none => d

/-- Embeds `product_to_public` (main.py lines 25-33): rename `_id` to a
string `id`, then stringify `created_at` and `updated_at` when present. -/
def product_to_public (d : Doc) : Doc :=
  stampField "updated_at" (stampField "created_at" (renameIdField d))

/-- Case-sensitive check that `pat` is an initial segment of `hay`. -/
def leadingMatch : List Char → List Char → Bool
| [], _ => true
| _ :: _, [] => false
| a :: as, b :: bs => a == b && leadingMatch as bs

/-- Case-sensitive substring containment on character lists. -/
def subIn (pat : List Char) : List Char → Bool
| [] => pat.isEmpty
| b :: tl => leadingMatch pat (b :: tl) || subIn pat tl

/-- Case-insensitive substring containment: the model of a MongoDB
`$regex` with `$options: "i"` applied to a metacharacter-free pattern. -/
def strContainsCI (hay pat : String) : Bool :=
  subIn pat.toLower.toList hay.toLower.toList

/-- A single-field MongoDB condition as built by the handlers. -/
inductive LeafCond where
| eqCond (field : String) (v : Value)
| regexCI (field : String) (pat : String)
| elemMatchRegexCI (field : String) (pat : String)
deriving DecidableEq, Repr

/-- A top-level entry of a MongoDB filter dict: either one field condition
or a `$or` of field conditions. -/
inductive Cond where
| leaf (c : LeafCond)
| orCond (cs : List LeafCond)
deriving DecidableEq, Repr

/-- MongoDB equality semantics for `{field: v}`: the stored value equals the
queried one, or the stored value is an array containing the queried string
(how `{"tags": "featured"}` matches). -/
def valueMatches (stored query : Value) : Bool :=
  match stored, query with
  | .arr l, .str s => l.contains s
  | st, q => decide (st = q)

/-- Evaluate one leaf condition against a document. -/
def leafMatches (c : LeafCond) (d : Doc) : Bool :=
  match c with
  | .eqCond f v =>
    match dictLookup f d with
    | some w => valueMatches w v
    | none => false
  | .regexCI f pat =>
    match dictLookup f d with
    | some (.str s) => strContainsCI s pat
    | _ => false
  | .elemMatchRegexCI f pat =>
    match dictLookup f d with
    | some (.arr l) => l.any (fun s => strContainsCI s pat)
    | _ => false

/-- Evaluate one filter entry against a document. -/
def condMatches (c : Cond) (d : Doc) : Bool :=
  match c with
  | .leaf lc => leafMatches lc d
  | .orCond cs => cs.any (fun lc => leafMatches lc d)

/-- Evaluate a whole filter dict: implicit AND over its entries. -/
def filterMatches (f : List Cond) (d : Doc) : Bool :=
  f.all (fun c => condMatches c d)

/-- Embeds the filter construction of `list_products` (main.py lines
100-108). Python truthiness: `if category:`/`if q:` skip both `None` and
the empty string. -/
def buildFilters (category q : Option String) : List Cond :=
  (match category with
   | some c => if c = "" then [] else [Cond.leaf (.eqCond "category" (Value.str c))]
   | none => []) ++
  (match q with
   | some s =>
     if s = "" then []
     else [Cond.orCond [.regexCI "title" s, .regexCI "description" s,
                        .elemMatchRegexCI "tags" s]]
   | none => [])

/-- FastAPI `Query(default, ge=lo, le=hi)` on an integer parameter: a
missing parameter takes the default, an out-of-range value fails request
validation (`none`, surfaced as HTTP 422 by the framework). -/
def validateLimit (lo hi default : Int) : Option Int → Option Int
| none => some default
| some v => if lo ≤ v ∧ v ≤ hi then some v else none

/-- Bodies the endpoints can answer with. -/
inductive RespBody where
| docs (items : List Doc)
| idOnly (id : String)
| detail (msg : String)
| validationError
deriving DecidableEq

/-- An HTTP response: status code plus body. -/
structure HttpResponse where
  status : Nat
  body : RespBody
deriving DecidableEq

/-- Modelled from the spec: `database.get_documents` (the repository file
`database.py` is not in the sources). Per section 4.1, `find` returns up to
`limit` records matching the filter in the store's natural order, which the
model takes to be list order. -/
def get_documents (store : List Doc) (filters : List Cond) (lim : Nat) : List Doc :=
  (store.filter (fun d => filterMatches filters d)).take lim

/-- Modelled from the spec: `database.create_document` (the repository file
`database.py` is not in the sources). Per sections 4.1 and 3, it persists
the record with a server-assigned opaque identifier and `created_at`
timestamp and returns the new identifier as a string. The assigned id and
timestamp are parameters of the model. -/
def create_document (docs : List Doc) (payload : Doc) (newId : String) (now : Int) :
    String × List Doc :=
  (newId, docs ++ [dictSet "created_at" (Value.intv now) (dictSet "_id" (Value.oid newId) payload)])

/-- Embeds `list_products` (main.py lines 89-111): parameter validation,
null-database guard, filter construction, query, response shaping. -/
def list_products (category q : Option String) (limitParam : Option Int)
    (store : Option (List Doc)) : HttpResponse :=
  match validateLimit 1 50 12 limitParam with
  | none => ⟨422, .validationError⟩
  | some lim =>
    match store with
    | none => ⟨200, .docs []⟩
    | some docs =>
      let filters := buildFilters category q
      ⟨200, .docs ((get_documents docs filters lim.toNat).map product_to_public)⟩

/-- Embeds `create_product` (main.py lines 114-119): HTTP 500 when the
database handle is null, otherwise insert and answer 201 with only the new
identifier. Returns the response together with the resulting store state. -/
def create_product (payload : Doc) (newId : String) (now : Int)
    (store : Option (List Doc)) : HttpResponse × Option (List Doc) :=
  match store with
  | none => (⟨500, .detail "Database non disponibile"⟩, none)
  | some docs =>
    let r := create_document docs payload newId now
    (⟨201, .idOnly r.1⟩, some r.2)

/-- Sort key for the recency fallback: the `created_at` value when it is an
integer timestamp, `0` otherwise. -/
def createdAtKey (d : Doc) : Int :=
  match dictLookup "created_at" d with
  | some (.intv n) => n
  | _ => 0

/-- Insert a document into a list kept in descending `created_at` order. -/
def insertDesc (d : Doc) : List Doc → List Doc
| [] => [d]
| e :: es => if createdAtKey e ≤ createdAtKey d then d :: e :: es else e :: insertDesc d es

/-- Model of `.sort("created_at", -1)`: sort descending by `created_at`. -/
def sortByCreatedDesc : List Doc → List Doc
| [] => []
| d :: ds => insertDesc d (sortByCreatedDesc ds)

/-- The phase-1 filter of the featured endpoint: `{"tags": "featured"}`. -/
def featuredFilter : List Cond := [Cond.leaf (.eqCond "tags" (Value.str "featured"))]

/-- Embeds the body of `featured_products` after the guards (main.py lines
127-133): featured-tagged docs first, then a recency fallback when phase 1
came up short, truncated to the limit and shaped. -/
def featuredCore (lim : Nat) (docs : List Doc) : List Doc :=
  let found := (docs.filter (fun d => filterMatches featuredFilter d)).take lim
  let found :=
    if found.length < lim then
      found ++ (sortByCreatedDesc docs).take (lim - found.length)
    else found
  (found.take lim).map product_to_public

/-- Embeds `featured_products` (main.py lines 122-133): parameter
validation, null-database guard, two-phase selection. -/
def featured_products (limitParam : Option Int) (store : Option (List Doc)) : HttpResponse :=
  match validateLimit 1 12 8 limitParam with
  | none => ⟨422, .validationError⟩
  | some lim =>
    match store with
    | none => ⟨200, .docs []⟩
    | some docs => ⟨200, .docs (featuredCore lim.toNat docs)⟩

/-- One entry of the static category list. -/
structure Category where
  key : String
  label : String
  image : String
deriving DecidableEq, Repr

/-- Embeds `get_categories` (main.py lines 79-86): the hardcoded list. -/
def get_categories : List Category :=
  [⟨"carte", "Carte Collezionabili",
    "https://images.unsplash.com/photo-1593113598332-cd288d649433?q=80&w=1600&auto=format&fit=crop"⟩,
   ⟨"gadget", "Gadget",
    "https://images.unsplash.com/photo-1526657782461-9fe13402a841?q=80&w=1600&auto=format&fit=crop"⟩,
   ⟨"videogiochi", "Videogiochi",
    "https://images.unsplash.com/photo-1542751371-adc38448a05e?q=80&w=1600&auto=format&fit=crop"⟩]

/-- The categories endpoint as a function of the store state: the handler
never consults the database handle. -/
def categoriesEndpoint (_store : Option (List Doc)) : List Category :=
  get_categories

/-- Follows the words of the spec and of claim C1/C8: the document's tags
contain the literal value `featured`. -/
def specTagsFeatured (d : Doc) : Bool :=
  match dictLookup "tags" d with
  | some (.arr l) => l.contains "featured"
  | _ => false

/-- Follows the words of the spec (section 4.3 step 1): up to `lim`
products whose tags contain the literal value `featured`. -/
def specFeaturedPhase1 (lim : Nat) (docs : List Doc) : List Doc :=
  (docs.filter specTagsFeatured).take lim

/-- Follows the words of the spec (section 4.3 step 2): when phase 1 came
up short, the most recently created products over the whole collection,
exactly `lim - (count from phase 1)` of them requested. -/
def specFeaturedPhase2 (lim : Nat) (docs : List Doc) : List Doc :=
  if (specFeaturedPhase1 lim docs).length < lim then
    (sortByCreatedDesc docs).take (lim - (specFeaturedPhase1 lim docs).length)
  else []

/-- Follows the words of the spec (section 4.3 step 3): phase-1 results
followed by phase-2 results, truncated to `lim`, shaped for output. -/
def specFeaturedResult (lim : Nat) (docs : List Doc) : List Doc :=
  ((specFeaturedPhase1 lim docs ++ specFeaturedPhase2 lim docs).take lim).map product_to_public

/-- Follows the words of the spec (section 4.2): exact match on the
category field. -/
def specCategoryCond (c : String) (d : Doc) : Bool :=
  decide (dictLookup "category" d = some (Value.str c))

/-- Follows the words of the spec (section 4.2): case-insensitive substring
match on title. -/
def specTitleCond (s : String) (d : Doc) : Bool :=
  match dictLookup "title" d with
  | some (.str t) => strContainsCI t s
  | _ => false

/-- Follows the words of the spec (section 4.2): case-insensitive substring
match on description. -/
def specDescriptionCond (s : String) (d : Doc) : Bool :=
  match dictLookup "description" d with
  | some (.str t) => strContainsCI t s
  | _ => false

/-- Follows the words of the spec (section 4.2): case-insensitive substring
match against at least one element of tags. -/
def specTagsCond (s : String) (d : Doc) : Bool :=
  match dictLookup "tags" d with
  | some (.arr l) => l.any (fun t => strContainsCI t s)
  | _ => false

/-- Follows the words of the spec (section 4.2): the free-text OR across
title, description and tags. -/
def specQCond (s : String) (d : Doc) : Bool :=
  specTitleCond s d || specDescriptionCond s d || specTagsCond s d

/-- Data-model well-formedness (section 3): the tags field, when present,
is an array, not a bare string. -/
def tagsWellFormed (d : Doc) : Bool :=
  match dictLookup "tags" d with
  | some (.str _) => false
  | _ => true

/-- Data-model well-formedness (section 3): the category field, when
present, is not an array. -/
def categoryWellFormed (d : Doc) : Bool :=
  match dictLookup "category" d with
  | some (.arr _) => false
  | _ => true

/-- Concrete store document for the duplicate-featured edge case: tagged
`featured` and the only document in the store. -/
def featuredDupDoc : Doc :=
  [("_id", Value.oid "a1"), ("tags", Value.arr ["featured"]), ("created_at", Value.intv 5)]

/-- Concrete catalog document used to instantiate the filter-construction
theorem. -/
def sampleCatalogDoc : Doc :=
  [("category", Value.str "carte"), ("title", Value.str "Carta rara")]

/-- Concrete stored document used to instantiate the response-shaping
theorem. -/
def sampleIdDoc : Doc :=
  [("_id", Value.oid "a1"), ("title", Value.str "t")]

theorem dictLookup_set_self (k : String) (v : Value) (d : Doc) :
    dictLookup k (dictSet k v d) = some v := by
  induction d with
  | nil => simp [dictSet, dictLookup]
  | cons p tl ih =>
    obtain ⟨a, w⟩ := p
    by_cases ha : a = k
    · subst ha
      simp [dictSet, dictLookup]
    · simp [dictSet, ha, dictLookup, ih]

theorem dictLookup_set_ne (k k2 : String) (v : Value) (d : Doc) (h : k2 ≠ k) :
    dictLookup k2 (dictSet k v d) = dictLookup k2 d := by
  induction d with
  | nil => simp [dictSet, dictLookup, Ne.symm h]
  | cons p tl ih =>
    obtain ⟨a, w⟩ := p
    by_cases ha : a = k
    · subst ha
      simp [dictSet, dictLookup, Ne.symm h]
    · by_cases hb : a = k2
      · simp [dictSet, ha, dictLookup, hb, h]
      · simp [dictSet, ha, dictLookup, hb, ih]

theorem dictLookup_erase_self (k : String) (d : Doc) :
    dictLookup k (dictErase k d) = none := by
  induction d with
  | nil => simp [dictErase, dictLookup]
  | cons p tl ih =>
    obtain ⟨a, w⟩ := p
    by_cases ha : a = k
    · simp [dictErase, ha, ih]
    · simp [dictErase, ha, dictLookup, ih]

theorem dictLookup_erase_ne (k k2 : String) (d : Doc) (h : k2 ≠ k) :
    dictLookup k2 (dictErase k d) = dictLookup k2 d := by
  induction d with
  | nil => simp [dictErase]
  | cons p tl ih =>
    obtain ⟨a, w⟩ := p
    by_cases ha : a = k
    · subst ha
      simp [dictErase, dictLookup, Ne.symm h, ih]
    · by_cases hb : a = k2
      · simp [dictErase, ha, dictLookup, hb, h]
      · simp [dictErase, ha, dictLookup, hb, ih]

theorem dictLookup_renameId_of_oid (d : Doc) (v : Value)
    (h : dictLookup "_id" d = some v) :
    dictLookup "_id" (renameIdField d) = none ∧
    dictLookup "id" (renameIdField d) = some (Value.str (valueToString v)) := by
  unfold renameIdField
  rw [h]
  constructor
  · rw [dictLookup_set_ne _ _ _ _ (by decide)]
    exact dictLookup_erase_self _ _
  · exact dictLookup_set_self _ _ _

theorem dictLookup_renameId_ne (d : Doc) (k : String) (h1 : k ≠ "_id") (h2 : k ≠ "id") :
    dictLookup k (renameIdField d) = dictLookup k d := by
  unfold renameIdField
  cases hv : dictLookup "_id" d with
  | none => rfl
  | some v => rw [dictLookup_set_ne _ _ _ _ h2, dictLookup_erase_ne _ _ _ h1]

theorem dictLookup_stamp_ne (key k : String) (d : Doc) (h : k ≠ key) :
    dictLookup k (stampField key d) = dictLookup k d := by
  unfold stampField
  cases hv : dictLookup key d with
  | none => rfl
  | some v => rw [dictLookup_set_ne _ _ _ _ h]

theorem dictLookup_stamp_self (key : String) (d : Doc) (v : Value)
    (h : dictLookup key d = some v) :
    dictLookup key (stampField key d) = some (Value.str (valueToString v)) := by
  unfold stampField
  rw [h]
  exact dictLookup_set_self _ _ _

theorem ptp_id_fields (d : Doc) (v : Value) (h : dictLookup "_id" d = some v) :
    dictLookup "_id" (product_to_public d) = none ∧
    dictLookup "id" (product_to_public d) = some (Value.str (valueToString v)) := by
  unfold product_to_public
  obtain ⟨h1, h2⟩ := dictLookup_renameId_of_oid d v h
  constructor
  · rw [dictLookup_stamp_ne _ _ _ (by decide), dictLookup_stamp_ne _ _ _ (by decide)]
    exact h1
  · rw [dictLookup_stamp_ne _ _ _ (by decide), dictLookup_stamp_ne _ _ _ (by decide)]
    exact h2

theorem ptp_other_fields (d : Doc) (k : String) (h1 : k ≠ "_id") (h2 : k ≠ "id")
    (h3 : k ≠ "created_at") (h4 : k ≠ "updated_at") :
    dictLookup k (product_to_public d) = dictLookup k d := by
  unfold product_to_public
  rw [dictLookup_stamp_ne _ _ _ h4, dictLookup_stamp_ne _ _ _ h3,
    dictLookup_renameId_ne _ _ h1 h2]

theorem ptp_created_at (d : Doc) (t : Value) (h : dictLookup "created_at" d = some t) :
    dictLookup "created_at" (product_to_public d) = some (Value.str (valueToString t)) := by
  unfold product_to_public
  rw [dictLookup_stamp_ne _ _ _ (by decide)]
  apply dictLookup_stamp_self
  rw [dictLookup_renameId_ne _ _ (by decide) (by decide)]
  exact h

theorem ptp_updated_at (d : Doc) (t : Value) (h : dictLookup "updated_at" d = some t) :
    dictLookup "updated_at" (product_to_public d) = some (Value.str (valueToString t)) := by
  unfold product_to_public
  apply dictLookup_stamp_self
  rw [dictLookup_stamp_ne _ _ _ (by decide), dictLookup_renameId_ne _ _ (by decide) (by decide)]
  exact h

theorem ptp_shaped_id (d : Doc) (h : (dictLookup "_id" d).isSome) :
    dictLookup "_id" (product_to_public d) = none ∧
    ∃ s, dictLookup "id" (product_to_public d) = some (Value.str s) := by
  cases hv : dictLookup "_id" d with
  | none =>
    rw [hv] at h
    simp at h
  | some v =>
    obtain ⟨h1, h2⟩ := ptp_id_fields d v hv
    exact ⟨h1, valueToString v, h2⟩

theorem mem_insertDesc (d x : Doc) (l : List Doc) (h : x ∈ insertDesc d l) :
    x = d ∨ x ∈ l := by
  induction l with
  | nil =>
    simp [insertDesc] at h
    exact Or.inl h
  | cons e es ih =>
    rw [insertDesc] at h
    split at h
    · rcases List.mem_cons.mp h with h | h
      · exact Or.inl h
      · exact Or.inr h
    · rcases List.mem_cons.mp h with h | h
      · exact Or.inr (by simp [h])
      · rcases ih h with h | h
        · exact Or.inl h
        · exact Or.inr (List.mem_cons_of_mem e h)

theorem mem_sortByCreatedDesc (x : Doc) (l : List Doc) (h : x ∈ sortByCreatedDesc l) :
    x ∈ l := by
  induction l with
  | nil => simp [sortByCreatedDesc] at h
  | cons d ds ih =>
    rw [sortByCreatedDesc] at h
    rcases mem_insertDesc d x _ h with h | h
    · simp [h]
    · exact List.mem_cons_of_mem d (ih h)

theorem mem_get_documents (x : Doc) (store : List Doc) (f : List Cond) (n : Nat)
    (h : x ∈ get_documents store f n) : x ∈ store := by
  unfold get_documents at h
  exact List.filter_subset' store (List.take_subset n _ h)

theorem mem_featuredCore (p : Doc) (lim : Nat) (store : List Doc)
    (h : p ∈ featuredCore lim store) : ∃ x ∈ store, p = product_to_public x := by
  simp only [featuredCore] at h
  rcases List.mem_map.mp h with ⟨x, hx, rfl⟩
  refine ⟨x, ?_, rfl⟩
  have hx2 := List.take_subset lim _ hx
  split at hx2
  · rcases List.mem_append.mp hx2 with h3 | h3
    · exact List.filter_subset' store (List.take_subset lim _ h3)
    · exact mem_sortByCreatedDesc x store (List.take_subset _ _ h3)
  · exact List.filter_subset' store (List.take_subset lim _ hx2)

theorem featured_filter_eq_spec (d : Doc) (h : tagsWellFormed d = true) :
    filterMatches featuredFilter d = specTagsFeatured d := by
  unfold tagsWellFormed at h
  unfold filterMatches featuredFilter condMatches leafMatches specTagsFeatured valueMatches
  cases hv : dictLookup "tags" d with
  | none => simp [hv]
  | some w =>
    rw [hv] at h
    cases w with
    | str s => simp at h
    | oid s => simp [hv]
    | intv n => simp [hv]
    | arr l => simp [hv]

theorem category_leaf_eq_spec (c : String) (d : Doc) (hwf : categoryWellFormed d = true) :
    leafMatches (.eqCond "category" (Value.str c)) d = specCategoryCond c d := by
  unfold categoryWellFormed at hwf
  unfold leafMatches specCategoryCond valueMatches
  cases hv : dictLookup "category" d with
  | none => simp [hv]
  | some w =>
    rw [hv] at hwf
    cases w with
    | arr l => simp at hwf
    | str t => simp [hv]
    | oid t => simp [hv]
    | intv n => simp [hv]

/-- C1: for every limit in [1, 12] and every store state (of well-formed
documents, whose tags field is an array), the featured endpoint returns
exactly the spec's two-phase selection: up to `limit` featured-tagged
products, then — only when phase 1 returned fewer than `limit` — the most
recently created products of the whole collection, `limit - n` of them
requested, concatenated in that order and truncated to `limit`. -/
theorem featured_two_phase (limit : Int) (store : List Doc)
    (h1 : 1 ≤ limit) (h2 : limit ≤ 12)
    (hwf : ∀ d ∈ store, tagsWellFormed d = true) :
    featured_products (some limit) (some store) =
      ⟨200, .docs (specFeaturedResult limit.toNat store)⟩ := by
  have hval : validateLimit 1 12 8 (some limit) = some limit := by
    simp only [validateLimit]
    rw [if_pos ⟨h1, h2⟩]
  have hfilter : store.filter (fun d => filterMatches featuredFilter d) =
      store.filter specTagsFeatured :=
    List.filter_congr fun x hx => featured_filter_eq_spec x (hwf x hx)
  have hcore : featuredCore limit.toNat store = specFeaturedResult limit.toNat store := by
    simp only [featuredCore, specFeaturedResult, specFeaturedPhase2, specFeaturedPhase1]
    rw [hfilter]
    by_cases hlen :
        ((store.filter specTagsFeatured).take limit.toNat).length < limit.toNat
    · rw [if_pos hlen, if_pos hlen]
    · rw [if_neg hlen, if_neg hlen, List.append_nil]
  unfold featured_products
  rw [hval]
  show (⟨200, .docs (featuredCore limit.toNat store)⟩ : HttpResponse) = _
  rw [hcore]

/-- Witness for C1 at limit 2 over a one-document store. -/
theorem featured_two_phase_witness :
    featured_products (some 2) (some [featuredDupDoc]) =
      ⟨200, .docs (specFeaturedResult (Int.toNat 2) [featuredDupDoc])⟩ :=
  featured_two_phase 2 [featuredDupDoc] (by decide) (by decide) (by decide)

/-- C8: a concrete store state with a single `featured`-tagged document
(fewer than the limit 2) on which the featured endpoint returns the same
product twice: phase 2 re-queries the whole collection without excluding
phase-1 ids and nothing deduplicates. -/
theorem featured_duplicate_edge_case :
    ([featuredDupDoc].filter specTagsFeatured).length = 1 ∧
    (1 : Nat) < 2 ∧
    featured_products (some 2) (some [featuredDupDoc]) =
      ⟨200, .docs [product_to_public featuredDupDoc, product_to_public featuredDupDoc]⟩ := by
  decide

/-- C9: the categories endpoint always answers exactly 3 entries with keys
`carte`, `gadget`, `videogiochi` in that order, each with a nonempty label
and image URL, independently of the store state. -/
theorem categories_static (store store2 : Option (List Doc)) :
    (categoriesEndpoint store).length = 3 ∧
    (categoriesEndpoint store).map Category.key = ["carte", "gadget", "videogiochi"] ∧
    (∀ c ∈ categoriesEndpoint store, c.label ≠ "" ∧ c.image ≠ "") ∧
    categoriesEndpoint store = categoriesEndpoint store2 := by
  refine ⟨rfl, rfl, ?_, rfl⟩
  show ∀ c ∈ get_categories, c.label ≠ "" ∧ c.image ≠ ""
  decide

/-- C10: supplying `category` or `q` as the empty string builds exactly the
same filter — and the same endpoint response — as omitting the parameter:
Python truthiness, not presence, decides whether a condition is added. -/
theorem empty_params_same_filter :
    (∀ q : Option String, buildFilters (some "") q = buildFilters none q) ∧
    (∀ cat : Option String, buildFilters cat (some "") = buildFilters cat none) ∧
    (∀ (q : Option String) (lp : Option Int) (store : Option (List Doc)),
      list_products (some "") q lp store = list_products none q lp store) ∧
    (∀ (cat : Option String) (lp : Option Int) (store : Option (List Doc)),
      list_products cat (some "") lp store = list_products cat none lp store) := by
  have hcat : ∀ q : Option String, buildFilters (some "") q = buildFilters none q := by
    intro q
    simp [buildFilters]
  have hq : ∀ cat : Option String, buildFilters cat (some "") = buildFilters cat none := by
    intro cat
    simp [buildFilters]
  refine ⟨hcat, hq, ?_, ?_⟩
  · intro q lp store
    unfold list_products
    rw [hcat q]
  · intro cat lp store
    unfold list_products
    rw [hq cat]

/-- C4 counterexample: limits outside the valid range are not clamped. At
limit 51 the product list endpoint answers HTTP 422 instead of behaving
like the clamped limit 50; at limit 13 the featured endpoint answers HTTP
422 instead of behaving like the clamped limit 12. -/
theorem limit_not_clamped_counterexample :
    list_products none none (some 51) (some []) = ⟨422, .validationError⟩ ∧
    list_products none none (some 50) (some []) = ⟨200, .docs []⟩ ∧
    list_products none none (some 51) (some []) ≠ list_products none none (some 50) (some []) ∧
    featured_products (some 13) (some []) = ⟨422, .validationError⟩ ∧
    featured_products (some 12) (some []) = ⟨200, .docs []⟩ := by
  decide

/-- C4 amended: a limit outside [1, 50] on the product list endpoint
(respectively outside [1, 12] on the featured endpoint) is rejected as a
validation failure rather than clamped; an absent limit takes the default
12 (respectively 8). -/
theorem limit_validation_behavior :
    (∀ (v : Int) (cat q : Option String) (store : Option (List Doc)), v < 1 ∨ 50 < v →
      list_products cat q (some v) store = ⟨422, .validationError⟩) ∧
    (∀ (v : Int) (store : Option (List Doc)), v < 1 ∨ 12 < v →
      featured_products (some v) store = ⟨422, .validationError⟩) ∧
    (∀ (cat q : Option String) (store : Option (List Doc)),
      list_products cat q none store = list_products cat q (some 12) store) ∧
    (∀ store : Option (List Doc),
      featured_products none store = featured_products (some 8) store) := by
  refine ⟨?_, ?_, ?_, ?_⟩
  · intro v cat q store h
    have hv : validateLimit 1 50 12 (some v) = none := by
      simp only [validateLimit]
      rw [if_neg]
      omega
    unfold list_products
    rw [hv]
  · intro v store h
    have hv : validateLimit 1 12 8 (some v) = none := by
      simp only [validateLimit]
      rw [if_neg]
      omega
    unfold featured_products
    rw [hv]
  · intro cat q store
    have hd : validateLimit 1 50 12 none = validateLimit 1 50 12 (some 12) := by decide
    unfold list_products
    rw [hd]
  · intro store
    have hd : validateLimit 1 12 8 none = validateLimit 1 12 8 (some 8) := by decide
    unfold featured_products
    rw [hd]

/-- Witness for the amended C4 at limit 0 on both endpoints. -/
theorem limit_validation_behavior_witness :
    list_products none none (some 0) (some []) = ⟨422, .validationError⟩ ∧
    featured_products (some 0) (some []) = ⟨422, .validationError⟩ :=
  ⟨limit_validation_behavior.1 0 none none (some []) (Or.inl (by decide)),
   limit_validation_behavior.2.1 0 (some []) (Or.inl (by decide))⟩

/-- C5: a limit outside [1, 50] on the product list endpoint is rejected as
a validation failure — the response is HTTP 422 with no product list — and
the store is never consulted: the response is the same for every store
state. -/
theorem list_products_rejects_out_of_range (v : Int) (cat q : Option String)
    (store store2 : Option (List Doc)) (h : v < 1 ∨ 50 < v) :
    list_products cat q (some v) store = ⟨422, .validationError⟩ ∧
    list_products cat q (some v) store = list_products cat q (some v) store2 := by
  have hv : validateLimit 1 50 12 (some v) = none := by
    simp only [validateLimit]
    rw [if_neg]
    omega
  unfold list_products
  rw [hv]
  exact ⟨rfl, rfl⟩

/-- Witness for C5 at limit 51. -/
theorem list_products_rejects_witness :
    list_products none none (some 51) (some [featuredDupDoc]) = ⟨422, .validationError⟩ ∧
    list_products none none (some 51) (some [featuredDupDoc]) =
      list_products none none (some 51) none :=
  list_products_rejects_out_of_range 51 none none (some [featuredDupDoc]) none
    (Or.inr (by decide))

/-- C6: with the database handle unavailable, the product list endpoint and
the featured endpoint answer HTTP 200 with the empty list (no error) for
every well-formed request. -/
theorem reads_empty_when_store_unavailable :
    (∀ (cat q : Option String) (lp : Option Int),
      (∀ w, lp = some w → 1 ≤ w ∧ w ≤ 50) →
      list_products cat q lp none = ⟨200, .docs []⟩) ∧
    (∀ lp : Option Int, (∀ w, lp = some w → 1 ≤ w ∧ w ≤ 12) →
      featured_products lp none = ⟨200, .docs []⟩) := by
  constructor
  · intro cat q lp h
    cases lp with
    | none => rfl
    | some w =>
      have hv : validateLimit 1 50 12 (some w) = some w := by
        simp only [validateLimit]
        rw [if_pos (h w rfl)]
      unfold list_products
      rw [hv]
  · intro lp h
    cases lp with
    | none => rfl
    | some w =>
      have hv : validateLimit 1 12 8 (some w) = some w := by
        simp only [validateLimit]
        rw [if_pos (h w rfl)]
      unfold featured_products
      rw [hv]

/-- Witness for C6: no limit parameter on the list endpoint, limit 3 on the
featured endpoint, both with the store unavailable. -/
theorem reads_empty_witness :
    list_products none none none none = ⟨200, .docs []⟩ ∧
    featured_products (some 3) none = ⟨200, .docs []⟩ :=
  ⟨reads_empty_when_store_unavailable.1 none none none (fun _ hw => Option.noConfusion hw),
   reads_empty_when_store_unavailable.2 (some 3)
     (fun w hw => by cases hw; exact ⟨by decide, by decide⟩)⟩

/-- C7: with the store unavailable, the create endpoint answers HTTP 500
with a detail message — no identifier — and nothing is inserted; on success
it appends the payload (with the server-assigned id and timestamp) to the
collection and answers HTTP 201 carrying only the new identifier as a
string. -/
theorem create_product_contract (payload : Doc) (newId : String) (now : Int) :
    create_product payload newId now none =
      (⟨500, .detail "Database non disponibile"⟩, none) ∧
    (∀ docs : List Doc, create_product payload newId now (some docs) =
      (⟨201, .idOnly newId⟩,
       some (docs ++
         [dictSet "created_at" (Value.intv now) (dictSet "_id" (Value.oid newId) payload)]))) :=
  ⟨rfl, fun _ => rfl⟩

/-- C2 counterexample: with `category` present but equal to the empty
string, the handler builds the absent-category filter, which does not
require exact equality on the category field — a document whose category is
`"x"` (not `""`) still matches the built filter. -/
theorem category_present_not_required_counterexample :
    buildFilters (some "") none = buildFilters none none ∧
    filterMatches (buildFilters (some "") none) [("category", Value.str "x")] = true ∧
    specCategoryCond "" [("category", Value.str "x")] = false := by
  decide

/-- C2 amended: for every request with non-empty parameter values (over
documents whose category field is not an array): a non-empty `category`
makes the filter require exact equality on the category field; a non-empty
`q` makes it additionally require the OR of case-insensitive substring
matches on title, description, or at least one tag; both conditions combine
with logical AND when both are given. -/
theorem filter_construction_semantics (c s : String) (d : Doc)
    (hc : c ≠ "") (hs : s ≠ "") (hwf : categoryWellFormed d = true) :
    filterMatches (buildFilters (some c) none) d = specCategoryCond c d ∧
    filterMatches (buildFilters none (some s)) d = specQCond s d ∧
    filterMatches (buildFilters (some c) (some s)) d =
      (specCategoryCond c d && specQCond s d) := by
  have hcat := category_leaf_eq_spec c d hwf
  have htitle : leafMatches (.regexCI "title" s) d = specTitleCond s d := rfl
  have hdesc : leafMatches (.regexCI "description" s) d = specDescriptionCond s d := rfl
  have htags : leafMatches (.elemMatchRegexCI "tags" s) d = specTagsCond s d := rfl
  refine ⟨?_, ?_, ?_⟩
  · simp [buildFilters, hc, filterMatches, condMatches, hcat]
  · simp [buildFilters, hs, filterMatches, condMatches, htitle, hdesc, htags, specQCond,
      Bool.or_assoc]
  · simp [buildFilters, hc, hs, filterMatches, condMatches, hcat, htitle, hdesc, htags,
      specQCond, Bool.or_assoc]

/-- Witness for the amended C2 on a concrete document and non-empty
parameters. -/
theorem filter_construction_semantics_witness :
    filterMatches (buildFilters (some "carte") none) sampleCatalogDoc =
      specCategoryCond "carte" sampleCatalogDoc ∧
    filterMatches (buildFilters none (some "ca")) sampleCatalogDoc =
      specQCond "ca" sampleCatalogDoc ∧
    filterMatches (buildFilters (some "carte") (some "ca")) sampleCatalogDoc =
      (specCategoryCond "carte" sampleCatalogDoc && specQCond "ca" sampleCatalogDoc) :=
  filter_construction_semantics "carte" "ca" sampleCatalogDoc
    (by decide) (by decide) (by decide)

/-- C3: response shaping drops the `_id` key, adds a string `id` field
carrying its rendering, stringifies `created_at` and `updated_at` when
present, and leaves every other key unchanged; consequently every shaped
product answered by the read endpoints (over stores whose documents carry
an `_id`) has a string `id` field and no `_id` field. -/
theorem shaping_contract :
    (∀ (d : Doc) (v : Value), dictLookup "_id" d = some v →
      dictLookup "_id" (product_to_public d) = none ∧
      dictLookup "id" (product_to_public d) = some (Value.str (valueToString v)) ∧
      (∀ t, dictLookup "created_at" d = some t →
        dictLookup "created_at" (product_to_public d) = some (Value.str (valueToString t))) ∧
      (∀ t, dictLookup "updated_at" d = some t →
        dictLookup "updated_at" (product_to_public d) = some (Value.str (valueToString t))) ∧
      (∀ k, k ≠ "_id" → k ≠ "id" → k ≠ "created_at" → k ≠ "updated_at" →
        dictLookup k (product_to_public d) = dictLookup k d)) ∧
    (∀ (store : List Doc) (cat q : Option String) (lp : Option Int) (l : List Doc),
      (∀ x ∈ store, (dictLookup "_id" x).isSome) →
      list_products cat q lp (some store) = ⟨200, .docs l⟩ →
      ∀ p ∈ l, dictLookup "_id" p = none ∧
        ∃ s2, dictLookup "id" p = some (Value.str s2)) ∧
    (∀ (store : List Doc) (lp : Option Int) (l : List Doc),
      (∀ x ∈ store, (dictLookup "_id" x).isSome) →
      featured_products lp (some store) = ⟨200, .docs l⟩ →
      ∀ p ∈ l, dictLookup "_id" p = none ∧
        ∃ s2, dictLookup "id" p = some (Value.str s2)) := by
  refine ⟨?_, ?_, ?_⟩
  · intro d v h
    obtain ⟨h1, h2⟩ := ptp_id_fields d v h
    exact ⟨h1, h2, fun t ht => ptp_created_at d t ht, fun t ht => ptp_updated_at d t ht,
      fun k k1 k2 k3 k4 => ptp_other_fields d k k1 k2 k3 k4⟩
  · intro store cat q lp l hwf heq p hp
    cases hv : validateLimit 1 50 12 lp with
    | none =>
      unfold list_products at heq
      rw [hv] at heq
      have h422 : (422 : Nat) = 200 := congrArg HttpResponse.status heq
      exact absurd h422 (by decide)
    | some lim =>
      unfold list_products at heq
      rw [hv] at heq
      have hl : RespBody.docs
          ((get_documents store (buildFilters cat q) lim.toNat).map product_to_public) =
          RespBody.docs l := congrArg HttpResponse.body heq
      have hl2 : (get_documents store (buildFilters cat q) lim.toNat).map product_to_public
          = l := by injection hl
      subst hl2
      rcases List.mem_map.mp hp with ⟨x, hx, rfl⟩
      exact ptp_shaped_id x (hwf x (mem_get_documents x store _ _ hx))
  · intro store lp l hwf heq p hp
    cases hv : validateLimit 1 12 8 lp with
    | none =>
      unfold featured_products at heq
      rw [hv] at heq
      have h422 : (422 : Nat) = 200 := congrArg HttpResponse.status heq
      exact absurd h422 (by decide)
    | some lim =>
      unfold featured_products at heq
      rw [hv] at heq
      have hl : RespBody.docs (featuredCore lim.toNat store) = RespBody.docs l :=
        congrArg HttpResponse.body heq
      have hl2 : featuredCore lim.toNat store = l := by injection hl
      subst hl2
      rcases mem_featuredCore p _ _ hp with ⟨x, hxs, rfl⟩
      exact ptp_shaped_id x (hwf x hxs)

/-- Witness for C3 on a concrete stored document. -/
theorem shaping_contract_witness :
    dictLookup "_id" (product_to_public sampleIdDoc) = none ∧
    dictLookup "id" (product_to_public sampleIdDoc) = some (Value.str "a1") ∧
    dictLookup "title" (product_to_public sampleIdDoc) = some (Value.str "t") := by
  obtain ⟨p1, p2, _, _, p5⟩ := shaping_contract.1 sampleIdDoc (Value.oid "a1") (by decide)
  exact ⟨p1, p2, p5 "title" (by decide) (by decide) (by decide) (by decide)⟩

end TopGames
